import Mathlib

/-!
Verification development for the fastnet2ip repository: a shallow embedding of
the Fastnet frame scanner / format decoder (`fn2ip.py`) and of the NMEA
sentence builders and trigger router (`fastnet2ip.py`), together with theorems
settling the specification's claims about them.

Bytes are modelled as `Nat` (all inputs of interest are `< 256`; Python's
arithmetic on them is unbounded, as is `Nat`).  Python `float` results of
dividing integers by powers of ten are modelled as exact rationals `ℚ`, which
is the semantics the numbers are intended to carry (the divisors are 1, 10,
100, 1000 and the quantities are instrument readings).
-/

namespace Fastnet

/-- `calculate_checksum(data)` from fn2ip.py:
`(0x100 - sum(data) % 0x100) & 0xFF`.  Since `sum % 0x100 ≤ 0xFF`, the Python
subtraction never goes negative, so `Nat` subtraction is faithful. -/
def calculate_checksum (data : List Nat) : Nat :=
  (0x100 - data.sum % 0x100) &&& 0xFF

/-- `FORMAT_SIZE_MAP.get(format_type, 0)` from fn2ip.py: payload byte count per
format nibble, `0` meaning "not in the dict". -/
def FORMAT_SIZE_MAP (format_type : Nat) : Nat :=
  if format_type = 0x00 then 4
  else if format_type = 0x01 then 2
  else if format_type = 0x02 then 2
  else if format_type = 0x03 then 2
  else if format_type = 0x04 then 4
  else if format_type = 0x05 then 4
  else if format_type = 0x06 then 4
  else if format_type = 0x07 then 4
  else if format_type = 0x08 then 2
  else if format_type = 0x0A then 4
  else 0

/-- The `CHANNEL_LOOKUP` dictionary from fn2ip.py (channel id → name). -/
def CHANNEL_LOOKUP : List (Nat × String) := [
  (0x00, "Node Reset"),
  (0x06, "Something to do with ACP (0x06)"),
  (0x0B, "Rudder Angle"),
  (0x1C, "Air Temperature (°F)"),
  (0x1D, "Air Temperature (°C)"),
  (0x1E, "Sea Temperature (°F)"),
  (0x1F, "Sea Temperature (°C)"),
  (0x27, "Head/Lift Trend"),
  (0x29, "Off Course"),
  (0x32, "Tacking Performance"),
  (0x33, "Reaching Performance"),
  (0x34, "Heel Angle"),
  (0x35, "Optimum Wind Angle"),
  (0x36, "Depth Sounder Receiver Gain"),
  (0x37, "Depth Sounder Noise"),
  (0x3B, "Linear 4"),
  (0x3C, "Rate Motion"),
  (0x41, "Boatspeed (Knots)"),
  (0x42, "Boatspeed (Raw)"),
  (0x46, "Something to do with ACP (0x46)"),
  (0x47, "LatLon"),
  (0x49, "Heading"),
  (0x4A, "Heading (Raw)"),
  (0x4D, "Apparent Wind Speed (Knots)"),
  (0x4E, "Apparent Wind Speed (Raw)"),
  (0x4F, "Apparent Wind Speed (m/s)"),
  (0x51, "Apparent Wind Angle"),
  (0x52, "Apparent Wind Angle (Raw)"),
  (0x53, "Target TWA"),
  (0x55, "True Wind Speed (Knots)"),
  (0x56, "True Wind Speed (m/s)"),
  (0x57, "Measured Wind Speed (Knots)"),
  (0x59, "True Wind Angle"),
  (0x5A, "Measured Wind Angle Deg"),
  (0x69, "Course"),
  (0x64, "Average Speed (Knots)"),
  (0x65, "Aberage Speed (raw)"),
  (0x6D, "True Wind Direction"),
  (0x6F, "Next Leg Apparent Wind Angle"),
  (0x75, "Timer"),
  (0x7D, "Target Boatspeed"),
  (0x7F, "Velocity Made Good (Knots)"),
  (0x81, "Dead Reckoning Distance"),
  (0x82, "Leeway"),
  (0x83, "Tidal Drift"),
  (0x84, "Tidal Set"),
  (0x85, "Upwash"),
  (0x86, "Barometric Pressure Trend"),
  (0x87, "Barometric Pressure"),
  (0x8D, "Battery Volts"),
  (0x9A, "Heading on Next Tack"),
  (0x9B, "Fore/Aft Trim"),
  (0x9C, "Mast Angle"),
  (0x9D, "Wind Angle to the Mast"),
  (0x9E, "Pitch Rate (Motion)"),
  (0xA6, "Autopilot Compass Target"),
  (0xAF, "Autopilot Off Course"),
  (0xC1, "Depth (Meters)"),
  (0xC2, "Depth (Feet)"),
  (0xC3, "Depth (Fathoms)"),
  (0xCD, "Stored Log (NM)"),
  (0xCF, "Trip Log (NM)"),
  (0xD3, "Dead Reckoning Course"),
  (0xE0, "Bearing Wpt. to Wpt. (True)"),
  (0xE1, "Bearing Wpt. to Wpt. (Mag)"),
  (0xE3, "Bearing to Waypoint (Rhumb True)"),
  (0xE4, "Bearing to Waypoint (Rhumb Mag)"),
  (0xE5, "Bearing to Waypoint (G.C. True)"),
  (0xE6, "Bearing to Waypoint (G.C. Mag)"),
  (0xE7, "Distance to Waypoint (Rhumb)"),
  (0xE8, "Distance to Waypoint (G.C.)"),
  (0xE9, "Course Over Ground (True)"),
  (0xEA, "Course Over Ground (Mag)"),
  (0xEB, "Speed Over Ground"),
  (0xEC, "Velocity Made Good (Course)"),
  (0xED, "Time to Waypoint"),
  (0xEE, "Cross Track Error"),
  (0xEF, "Remote 0"),
  (0xF0, "Remote 1"),
  (0xF1, "Remote 2"),
  (0xF2, "Remote 3"),
  (0xF3, "Remote 4"),
  (0xF4, "Remote 5"),
  (0xF5, "Remote 6"),
  (0xF6, "Remote 7"),
  (0xF7, "Remote 8"),
  (0xF8, "Remote 9"),
  (0xFA, "Next Waypoint Distance"),
  (0xFB, "Time to Layline")]

/-- One hexadecimal digit, upper case (for Python's `%X` formatting). -/
def hexDigit (n : Nat) : Char :=
  if n < 10 then Char.ofNat (48 + n) else Char.ofNat (55 + n)

/-- Python's `f"{n:02X}"` for a byte value. -/
def hexByte (n : Nat) : String :=
  String.mk [hexDigit (n / 16 % 16), hexDigit (n % 16)]

/-- `CHANNEL_LOOKUP.get(channel_id, f"process_frame: Unknown Channel (0x{id:02X})")`
as used inside `process_frame`. -/
def channel_name_of (channel_id : Nat) : String :=
  (CHANNEL_LOOKUP.lookup channel_id).getD
    ("process_frame: Unknown Channel (0x" ++ hexByte channel_id ++ ")")

/-- The `raw_value` field of a decoded result (Python puts heterogeneous values
into this slot; each constructor mirrors one shape occurring in
`decode_format_and_data`). -/
inductive RawVal where
  | int (i : Int)
  | seg (segment_code unsigned_value : Nat)
  | timer (useless hours minutes seconds : Nat)
  | hexes (bytes : List Nat)
  | nat (n : Nat)
  | pairI (first_raw second_raw : Int)
  deriving Repr, DecidableEq

/-- The `interpreted_value` of a decoded result. -/
inductive InterpVal where
  | num (q : ℚ)
  | duration (hours minutes seconds : Nat)
  | text (s : String)
  | pairQ (first second : ℚ)
  deriving Repr, DecidableEq

/-- The dictionary `decode_format_and_data` returns (the purely informational
string renderings of the inputs are omitted; the inputs themselves are kept). -/
structure DecodedResult where
  channel_id : Nat
  format_byte : Nat
  data_bytes : List Nat
  divisor : Nat
  digits : Nat
  format_bits : Nat
  raw : RawVal
  interpreted : InterpVal
  deriving Repr, DecidableEq

/-- Big-endian unsigned `int.from_bytes(bs, "big", signed=False)`. -/
def bytesToNatBE (bs : List Nat) : Nat :=
  bs.foldl (fun acc b => acc * 256 + b) 0

/-- Big-endian signed `int.from_bytes(bs, "big", signed=True)`. -/
def bytesToIntBE (bs : List Nat) : Int :=
  let u := bytesToNatBE bs
  if u < 2 ^ (8 * bs.length - 1) then (u : Int) else (u : Int) - 2 ^ (8 * bs.length)

/-- `divisor_map = {0b00: 1, 0b01: 10, 0b10: 100, 0b11: 1000}` with
`.get(divisor_bits, 1)`. -/
def divisor_map (b : Nat) : Nat :=
  if b = 0 then 1 else if b = 1 then 10 else if b = 2 then 100
  else if b = 3 then 1000 else 1

/-- `digits_map = {0b00: 1, 0b01: 2, 0b10: 3, 0b11: 4}` with
`.get(digits_bits, 1)`. -/
def digits_map (b : Nat) : Nat :=
  if b = 0 then 1 else if b = 1 then 2 else if b = 2 then 3
  else if b = 3 then 4 else 1

/-- `convert_segment_b_to_char` from fn2ip.py. -/
def convert_segment_b_to_char (segment_byte : Nat) : Char :=
  if segment_byte = 0x00 then ' '
  else if segment_byte = 0xBE then 'O'
  else if segment_byte = 0xE8 then 'F'
  else if segment_byte = 0x62 then 'n'
  else if segment_byte = 0x72 then 'o'
  else '?'

/-- `decode_format_and_data` from fn2ip.py.  `none` models both explicit
`return None` paths (bad lengths, empty data, unsupported format). -/
def decode_format_and_data (channel_id format_byte : Nat) (data_bytes : List Nat) :
    Option DecodedResult :=
  let divisor_bits := (format_byte >>> 6) &&& 0b11
  let digits_bits := (format_byte >>> 4) &&& 0b11
  let format_bits := format_byte &&& 0b1111
  let divisor := divisor_map divisor_bits
  let digits := digits_map digits_bits
  let mk : RawVal → InterpVal → DecodedResult := fun raw interpreted =>
    { channel_id := channel_id, format_byte := format_byte,
      data_bytes := data_bytes, divisor := divisor, digits := digits,
      format_bits := format_bits, raw := raw, interpreted := interpreted }
  if data_bytes.length = 0 then none
  else if format_bits = 0x01 then
    if data_bytes.length ≠ 2 then none
    else
      let raw_value := bytesToIntBE data_bytes
      some (mk (.int raw_value) (.num ((raw_value : ℚ) / (divisor : ℚ))))
  else if format_bits = 0x02 then
    if data_bytes.length ≠ 2 then none
    else
      let b0 := data_bytes.getD 0 0
      let b1 := data_bytes.getD 1 0
      let segment_code := (b0 >>> 2) &&& 0b111111
      let unsigned_value := ((b0 &&& 0b11) <<< 8) ||| b1
      some (mk (.seg segment_code unsigned_value)
        (.num ((unsigned_value : ℚ) / (divisor : ℚ))))
  else if format_bits = 0x03 then
    if data_bytes.length ≠ 2 then none
    else
      let b0 := data_bytes.getD 0 0
      let b1 := data_bytes.getD 1 0
      let segment_code := (b0 >>> 1) &&& 0b01111111
      let unsigned_value := ((b0 &&& 0b1) <<< 8) ||| b1
      some (mk (.seg segment_code unsigned_value)
        (.num ((unsigned_value : ℚ) / (divisor : ℚ))))
  else if format_bits = 0x04 then
    if data_bytes.length ≠ 4 then none
    else
      let segment_code := data_bytes.getD 0 0
      let unsigned_value := bytesToNatBE (data_bytes.drop 1)
      some (mk (.seg segment_code unsigned_value)
        (.num ((unsigned_value : ℚ) / (divisor : ℚ))))
  else if format_bits = 0x05 then
    if data_bytes.length ≠ 4 then none
    else
      let useless := data_bytes.getD 0 0
      let hours := data_bytes.getD 1 0
      let minutes := data_bytes.getD 2 0
      let seconds := data_bytes.getD 3 0
      some (mk (.timer useless hours minutes seconds)
        (.duration hours minutes seconds))
  else if format_bits = 0x06 then
    if data_bytes.length ≠ 4 then none
    else
      let segment_text := String.mk (data_bytes.map convert_segment_b_to_char)
      some (mk (.hexes data_bytes) (.text segment_text))
  else if format_bits = 0x07 then
    if data_bytes.length ≠ 4 then none
    else
      let msb := (data_bytes.getD 2 0 >>> 1) &&& 0b01111111
      let lsb := data_bytes.getD 3 0
      let unsigned_value := (msb <<< 8) ||| lsb
      some (mk (.nat unsigned_value) (.num ((unsigned_value : ℚ) / (divisor : ℚ))))
  else if format_bits = 0x08 then
    if data_bytes.length ≠ 2 then none
    else
      let b0 := data_bytes.getD 0 0
      let b1 := data_bytes.getD 1 0
      let segment_code := (b0 >>> 1) &&& 0b01111111
      let unsigned_value := ((b0 &&& 0b1) <<< 8) ||| b1
      some (mk (.seg segment_code unsigned_value)
        (.num ((unsigned_value : ℚ) / (divisor : ℚ))))
  else if format_bits = 0x0A then
    if data_bytes.length ≠ 4 then none
    else
      let first_value := bytesToIntBE (data_bytes.take 2)
      let second_value := bytesToIntBE (data_bytes.drop 2)
      some (mk (.pairI first_value second_value)
        (.pairQ ((first_value : ℚ) / (divisor : ℚ)) ((second_value : ℚ) / (divisor : ℚ))))
  else none

/-- The channel/format/data loop inside `process_frame` (fn2ip.py), on the
remaining body bytes; returns the `(channel_name, interpreted_value)` pairs
passed to `update_live_data`, in order.  `fuel` makes the recursion structural;
`process_frame_updates` below instantiates it with enough fuel.  The Python
loop: stop on a short tail (`index + 2 > len(body)`), stop when the format
nibble is not in `FORMAT_SIZE_MAP` (`data_length == 0 → break`), stop when the
payload is truncated, skip the triple (`continue`) when
`decode_format_and_data` returns `None`, otherwise commit the update. -/
def processBodyFuel : Nat → List Nat → List (String × InterpVal)
  | _, [] => []
  | _, [_] => []
  | 0, _ => []
  | fuel + 1, channel_id :: format_byte :: rest =>
    let format_type := format_byte &&& 0x0F
    let data_length := FORMAT_SIZE_MAP format_type
    if data_length = 0 then []
    else if rest.length < data_length then []
    else
      let data_bytes := rest.take data_length
      match decode_format_and_data channel_id format_byte data_bytes with
      | none => processBodyFuel fuel (rest.drop data_length)
      | some result =>
        (channel_name_of channel_id, result.interpreted) ::
          processBodyFuel fuel (rest.drop data_length)

/-- The body loop of `process_frame` with fuel fixed to the body length (each
iteration consumes at least two bytes, so this is enough fuel). -/
def processBody (body : List Nat) : List (String × InterpVal) :=
  processBodyFuel body.length body

/-- `process_frame` from fn2ip.py: strips the trailing body checksum
(`frame = frame[:-1]`), takes `body = frame[5:]` and runs the decode loop.
Returned are the live-data updates it performs. -/
def process_frame_updates (frame : List Nat) : List (String × InterpVal) :=
  processBody (frame.dropLast.drop 5)

/-- Python `bytes.decode("ascii")`: succeeds iff every byte is `< 128`. -/
def asciiDecode (bs : List Nat) : Option String :=
  if bs.all (· < 128) then some (String.mk (bs.map Char.ofNat)) else none

/-- `process_ascii_frame` from fn2ip.py.  The function reads `frame[5]`,
`frame[6]` and `frame[7]` before anything else, so it raises `IndexError`
(modelled as `.error ()`) whenever `len(frame) ≤ 7`.  On success it returns
the single live-data update it performs; a `UnicodeDecodeError` is caught in
the source and yields no update (`.ok none`). -/
def process_ascii_frame (frame : List Nat) : Except Unit (Option (String × InterpVal)) :=
  if frame.length ≤ 7 then .error ()
  else
    let channel_id := frame.getD 5 0
    let data_bytes := (frame.drop 7).dropLast
    let channel_name := (CHANNEL_LOOKUP.lookup channel_id).getD
      ("process_ascii_frame: Unknown Channel (0x" ++ hexByte channel_id ++ ")")
    match asciiDecode data_bytes with
    | none => .ok none
    | some ascii_text => .ok (some (channel_name, .text ascii_text.trim))

/-- Whether processing the given validated frame raises an exception that
escapes to `frame_scanner`'s outer handler.  `process_frame` (command `0x01`)
wraps its whole body in `try/except` and never raises; only
`process_ascii_frame` (command `0x03`) can raise, via its unguarded
`frame[5]`/`frame[6]`/`frame[7]` reads. -/
def raisesOn (frame : List Nat) : Bool :=
  frame.getD 3 0 == 3 &&
    (match process_ascii_frame frame with
     | .error _ => true
     | .ok _ => false)

/-- The inner `while len(buffer) >= 6` scan loop of `frame_scanner` (fn2ip.py)
run until it needs more bytes, raises, or empties the buffer.  Result:
`(frames passed to processing, remaining buffer, loop aborted by exception)`.
On a header or body checksum mismatch the code pops exactly one byte
(`buffer.pop(0)`) and retries; on success it passes `buffer[:6+size]` to the
processing functions and then drops it from the buffer — unless processing
raises, in which case the buffer survives unchanged (line
`buffer = buffer[full_frame_length:]` is skipped).  `fuel` makes the recursion
structural; every step shortens the buffer, so `buffer.length` is enough. -/
def scanFuel : Nat → List Nat → List (List Nat) × (List Nat × Bool)
  | 0, buffer => ([], (buffer, false))
  | fuel + 1, buffer =>
    if buffer.length < 6 then ([], (buffer, false))
    else
      let body_size := buffer.getD 2 0
      if calculate_checksum (buffer.take 4) ≠ buffer.getD 4 0 then
        scanFuel fuel (buffer.drop 1)
      else if buffer.length < 6 + body_size then ([], (buffer, false))
      else if calculate_checksum ((buffer.drop 5).take body_size) ≠
          buffer.getD (5 + body_size) 0 then
        scanFuel fuel (buffer.drop 1)
      else
        let frame := buffer.take (6 + body_size)
        if raisesOn frame then ([frame], (buffer, true))
        else
          let r := scanFuel fuel (buffer.drop (6 + body_size))
          (frame :: r.1, r.2)

/-- One full drain of the `frame_scanner` buffer (fuel instantiated). -/
def frame_scanner_loop (buffer : List Nat) : List (List Nat) × (List Nat × Bool) :=
  scanFuel buffer.length buffer

/-- The frames a drain passes to processing. -/
def scannedFrames (buffer : List Nat) : List (List Nat) :=
  (frame_scanner_loop buffer).1

/-- A structurally valid Fastnet frame, exactly as `frame_scanner` checks it:
correct length, header checksum over the first four bytes at offset 4, body
checksum over the `body_size` body bytes at offset `5 + body_size`. -/
def ValidFrame (f : List Nat) : Prop :=
  f.length = 6 + f.getD 2 0 ∧
  calculate_checksum (f.take 4) = f.getD 4 0 ∧
  calculate_checksum ((f.drop 5).take (f.getD 2 0)) = f.getD (5 + f.getD 2 0) 0

instance (f : List Nat) : Decidable (ValidFrame f) := by
  unfold ValidFrame; infer_instance

/-! ### The NMEA side (fastnet2ip.py)

The global `live_data` dict guarded by `live_data_lock` is modelled by explicit
state passing of a map from channel name to stored value.  The timestamp and
`channel_id` bookkeeping fields of a record are wall-clock metadata with no
influence on any claim and are omitted. -/

/-- The `live_data` store of fastnet2ip.py: channel name → latest
`interpreted_value`. -/
def LiveMap := String → Option InterpVal

/-- The store before any frame arrived. -/
def emptyLive : LiveMap := fun _ => none

/-- `update_live_data` from fastnet2ip.py: overwrite the record for one
channel name. -/
def update_live_data (m : LiveMap) (channel_name : String) (v : InterpVal) : LiveMap :=
  fun k => if k = channel_name then some v else m k

/-- Python's `float(raw)` on a stored value: numbers pass through; a
`timedelta` or dict raises `TypeError` (→ `none`).  A string would be parsed
by Python when it is numeric; the only strings stored by this program are
LatLon strings and 7-segment texts, which are not parseable, so strings map to
`none` here. -/
def pyFloat : InterpVal → Option ℚ
  | .num q => some q
  | _ => none

/-- Python's `str(raw)` for the `as_string=True` read.  Only `.text` values
are read this way by the program (the LatLon channel); the numeric rendering
is a stand-in for Python's float repr. -/
def pyStr : InterpVal → String
  | .text s => s
  | .num q => toString q
  | .duration h m s => toString h ++ ":" ++ toString m ++ ":" ++ toString s
  | .pairQ a b => toString a ++ "," ++ toString b

/-- `get_live_data(name)` from fastnet2ip.py (numeric mode): look the record
up, take its `interpreted_value`, coerce to float, `None` on failure. -/
def get_live_data (m : LiveMap) (name : String) : Option ℚ :=
  (m name).bind pyFloat

/-- `get_live_data(name, as_string=True)` from fastnet2ip.py. -/
def get_live_data_string (m : LiveMap) (name : String) : Option String :=
  (m name).map pyStr

/-- Python's fixed-point formatting `f"{x:.prec f}"` on the exact rational
carried by the value.  Exact whenever `x` is a multiple of `10^(-prec)`, which
holds for every concrete value appearing in the theorems below (`round` is
only a stand-in for float rounding at inexact inputs). -/
def fmtFixed (prec : Nat) (x : ℚ) : String :=
  let t : Int := round (x * ((10 : ℚ) ^ prec))
  let mag : Nat := t.natAbs
  let scale : Nat := 10 ^ prec
  let fracStr := toString (mag % scale)
  let pad := String.mk (List.replicate (prec - fracStr.length) '0')
  (if t < 0 then "-" else "") ++ toString (mag / scale) ++ "." ++ pad ++ fracStr

/-- The pattern `f"{x:.prec f}" if x is not None else ""` used throughout the
builders. -/
def fmtOpt (prec : Nat) : Option ℚ → String
  | some q => fmtFixed prec q
  | none => ""

/-- `calculate_nmea_checksum` from fastnet2ip.py: XOR of every character,
rendered `f"{checksum:02X}"`. -/
def calculate_nmea_checksum (sentence : String) : String :=
  hexByte (sentence.data.foldl (fun acc c => acc ^^^ c.toNat) 0)

/-- The final line shared by every builder:
`return f"${body}*{calculate_nmea_checksum(body)}\n"`. -/
def mkSentence (body : String) : String :=
  "$" ++ body ++ "*" ++ calculate_nmea_checksum body ++ "\n"

/-- `process_vhw` from fastnet2ip.py. -/
def process_vhw (m : LiveMap) : Option String :=
  let hdg := get_live_data m "Heading"
  let bs := get_live_data m "Boatspeed (Knots)"
  let body :=
    match hdg with
    | some h => "IIVHW,,," ++ fmtFixed 1 h ++ ",M," ++ fmtOpt 1 bs ++ ",N,,"
    | none => "IIVHW,,,,," ++ fmtOpt 1 bs ++ ",N,,"
  some (mkSentence body)

/-- `process_dbt` from fastnet2ip.py. -/
def process_dbt (m : LiveMap) : Option String :=
  let df := get_live_data m "Depth (Feet)"
  let dm := get_live_data m "Depth (Meters)"
  let dfa := get_live_data m "Depth (Fathoms)"
  some (mkSentence ("IIDBT," ++ fmtOpt 1 df ++ ",f," ++ fmtOpt 1 dm ++ ",M," ++
    fmtOpt 1 dfa ++ ",F"))

/-- `process_rsa` from fastnet2ip.py. -/
def process_rsa (m : LiveMap) : Option String :=
  let ra := get_live_data m "Rudder Angle"
  let ra_str := fmtOpt 1 ra
  let status := match ra with | some _ => "A" | none => "V"
  some (mkSentence ("IIRSA," ++ ra_str ++ "," ++ status ++ ",," ++ status))

/-- `process_xdr_battv` from fastnet2ip.py (note: it reads the key
"Battery Voltage", verbatim from the source). -/
def process_xdr_battv (m : LiveMap) : Option String :=
  let bv := get_live_data m "Battery Voltage"
  some (mkSentence ("IIXDR,U," ++ fmtOpt 2 bv ++ ",V,BATTV"))

/-- `process_mwd` from fastnet2ip.py. -/
def process_mwd (m : LiveMap) : Option String :=
  let twd := (get_live_data m "True Wind Direction").map
    (fun t => if t < 0 then t + 360 else t)
  let tws := get_live_data m "True Wind Speed (Knots)"
  let tws_ms := tws.map (fun t => t * 1852.0 / 3600.0)
  some (mkSentence ("WIMWD,,," ++ fmtOpt 1 twd ++ ",M," ++ fmtOpt 1 tws ++ ",N," ++
    fmtOpt 1 tws_ms ++ ",M"))

/-- `process_mwv_true` from fastnet2ip.py. -/
def process_mwv_true (m : LiveMap) : Option String :=
  let twa := (get_live_data m "True Wind Angle").map
    (fun t => if t < 0 then t + 360 else t)
  let twa_str := fmtOpt 1 twa
  let tws := get_live_data m "True Wind Speed (Knots)"
  let tws_str := fmtOpt 1 tws
  let status := if twa_str ≠ "" ∧ tws_str ≠ "" then "A" else "V"
  some (mkSentence ("IIMWV," ++ twa_str ++ ",T," ++ tws_str ++ ",N," ++ status))

/-- `process_mwv_apparent` from fastnet2ip.py. -/
def process_mwv_apparent (m : LiveMap) : Option String :=
  let awa := (get_live_data m "Apparent Wind Angle").map
    (fun t => if t < 0 then t + 360 else t)
  let awa_str := fmtOpt 1 awa
  let aws := get_live_data m "Apparent Wind Speed (Knots)"
  let aws_str := fmtOpt 1 aws
  let status := if awa_str ≠ "" ∧ aws_str ≠ "" then "A" else "V"
  some (mkSentence ("IIMWV," ++ awa_str ++ ",R," ++ aws_str ++ ",N," ++ status))

/-- `process_mtw` from fastnet2ip.py (reads the key "Sea Temperature",
verbatim from the source). -/
def process_mtw (m : LiveMap) : Option String :=
  let st := get_live_data m "Sea Temperature"
  some (mkSentence ("IIMTW," ++ fmtOpt 1 st ++ ",C"))

/-- `process_hdm` from fastnet2ip.py. -/
def process_hdm (m : LiveMap) : Option String :=
  let mag := get_live_data m "Heading"
  some (mkSentence ("IIHDM," ++ fmtOpt 1 mag ++ ",M"))

/-- `process_vtg` from fastnet2ip.py.  Note the source reads the key
"Speed Over Ground (Knots)" — not the channel name "Speed Over Ground" its
trigger is registered under. -/
def process_vtg (m : LiveMap) : Option String :=
  let tt := (get_live_data m "Course Over Ground (True)").map
    (fun t => if t < 0 then t + 360 else t)
  let tt_str := fmtOpt 1 tt
  let mt := (get_live_data m "Course Over Ground (Mag)").map
    (fun t => if t < 0 then t + 360 else t)
  let mt_str := fmtOpt 1 mt
  let sog := get_live_data m "Speed Over Ground (Knots)"
  let kts_str := fmtOpt 1 sog
  let kmph_str := fmtOpt 1 (sog.map (fun s => s * 1.852))
  let mode := if kts_str ≠ "" then "A" else "V"
  let fields := [tt_str, if tt_str ≠ "" then "T" else "",
    mt_str, if mt_str ≠ "" then "M" else "",
    kts_str, if kts_str ≠ "" then "N" else "",
    kmph_str, if kmph_str ≠ "" then "K" else "", mode]
  some (mkSentence ("IIVTG," ++ String.intercalate "," fields))

/-- Python `str.find(ch)`: index of the first occurrence or `-1`. -/
def strFind (s : String) (c : Char) : Int :=
  match s.data.findIdx? (· == c) with
  | some i => (i : Int)
  | none => -1

/-- `process_gll` from fastnet2ip.py.  The UTC wall-clock string
`datetime.utcnow().strftime("%H%M%S")` is passed in as `time_str`. -/
def process_gll (time_str : String) (m : LiveMap) : Option String :=
  match get_live_data_string m "LatLon" with
  | none => none
  | some latlon_str =>
    if latlon_str = "" then none
    else
      let lat_idx := max (strFind latlon_str 'N') (strFind latlon_str 'S')
      let lon_idx := max (strFind latlon_str 'E') (strFind latlon_str 'W')
      if lat_idx = -1 ∨ lon_idx = -1 then none
      else
        let lat_part := String.mk (latlon_str.data.take lat_idx.toNat)
        let lat_dir := String.mk [latlon_str.data.getD lat_idx.toNat ' ']
        let lon_part := String.mk
          ((latlon_str.data.drop (lat_idx.toNat + 1)).take (lon_idx.toNat - (lat_idx.toNat + 1)))
        let lon_dir := String.mk [latlon_str.data.getD lon_idx.toNat ' ']
        some (mkSentence ("GPGLL," ++ lat_part ++ "," ++ lat_dir ++ "," ++ lon_part ++
          "," ++ lon_dir ++ "," ++ time_str ++ ",A"))

/-- `process_xdr_raw_wind_angle` from fastnet2ip.py. -/
def process_xdr_raw_wind_angle (m : LiveMap) : Option String :=
  let rwa := get_live_data m "Measured Wind Angle Raw"
  some (mkSentence ("IIXDR,A," ++ fmtOpt 2 rwa ++ ",V,RAW_WIND_A"))

/-- `process_xdr_raw_wind_s` from fastnet2ip.py. -/
def process_xdr_raw_wind_s (m : LiveMap) : Option String :=
  let rws := get_live_data m "Measured Wind Speed Raw"
  some (mkSentence ("IIXDR,N," ++ fmtOpt 2 rws ++ ",V,RAW_WIND_S"))

/-- `process_xdr_drift` from fastnet2ip.py. -/
def process_xdr_drift (m : LiveMap) : Option String :=
  let drift := get_live_data m "Tide Drift Speed"
  some (mkSentence ("IIXDR,N," ++ fmtOpt 2 drift ++ ",V,DRIFT"))

/-- `process_xdr_set` from fastnet2ip.py. -/
def process_xdr_set (m : LiveMap) : Option String :=
  let ts := get_live_data m "Tide Set Angle"
  some (mkSentence ("IIXDR,A," ++ fmtOpt 2 ts ++ ",V,SET"))

/-- `process_xdr_raw_bsp` from fastnet2ip.py. -/
def process_xdr_raw_bsp (m : LiveMap) : Option String :=
  let raw := get_live_data m "Raw BSP"
  some (mkSentence ("IIXDR,N," ++ fmtOpt 2 raw ++ ",V,RAW_BSP"))

/-- `process_xdr_roll` from fastnet2ip.py. -/
def process_xdr_roll (m : LiveMap) : Option String :=
  let ra := get_live_data m "Roll"
  some (mkSentence ("IIXDR,A," ++ fmtOpt 2 ra ++ ",D,ROLL"))

/-- `process_xdr_pitch` from fastnet2ip.py. -/
def process_xdr_pitch (m : LiveMap) : Option String :=
  let pt := get_live_data m "Pitch"
  some (mkSentence ("IIXDR,A," ++ fmtOpt 2 pt ++ ",D,PITCH"))

/-- The `trigger_functions` dictionary of fastnet2ip.py: channel name → the
(single) builder registered for it.  `time_str` parameterises the wall clock
used by the GLL builder. -/
def trigger_functions (time_str : String) (channel_name : String) :
    Option (LiveMap → Option String) :=
  if channel_name = "Boatspeed (Knots)" then some process_vhw
  else if channel_name = "Depth (Meters)" then some process_dbt
  else if channel_name = "Rudder Angle" then some process_rsa
  else if channel_name = "Battery Volts" then some process_xdr_battv
  else if channel_name = "True Wind Direction" then some process_mwd
  else if channel_name = "True Wind Speed (Knots)" then some process_mwv_true
  else if channel_name = "True Wind Angle" then some process_mwv_true
  else if channel_name = "Apparent Wind Speed (Knots)" then some process_mwv_apparent
  else if channel_name = "Apparent Wind Angle" then some process_mwv_apparent
  else if channel_name = "Sea Temperature (°C)" then some process_mtw
  else if channel_name = "Heading" then some process_hdm
  else if channel_name = "Speed Over Ground" then some process_vtg
  else if channel_name = "Course Over Ground (Mag)" then some process_vtg
  else if channel_name = "Course Over Ground (True)" then some process_vtg
  else if channel_name = "LatLon" then some (process_gll time_str)
  else if channel_name = "Apparent Wind Angle (Raw)" then some process_xdr_raw_wind_angle
  else if channel_name = "Apparent Wind Speed (Raw)" then some process_xdr_raw_wind_s
  else if channel_name = "Tidal Drift" then some process_xdr_drift
  else if channel_name = "Tidal Set" then some process_xdr_set
  else if channel_name = "Boatspeed (Raw)" then some process_xdr_raw_bsp
  else if channel_name = "Heel Angle" then some process_xdr_roll
  else if channel_name = "Fore/Aft Trim" then some process_xdr_pitch
  else none

/-- `trigger_nmea_sentence` from fastnet2ip.py: look the builder up and call
it with no arguments (it reads the live store itself); `None` when no builder
is registered.  None of the modelled builders raises, so the source's
`except` arm is unreachable here. -/
def trigger_nmea_sentence (time_str : String) (channel_name : String) (m : LiveMap) :
    Option String :=
  match trigger_functions time_str channel_name with
  | none => none
  | some f => f m

/-- The per-frame loop of `process_frame_queue` (fastnet2ip.py): for each
decoded `(channel_name, interpreted)` value of one frame, in body order,
update the live store, then trigger the channel's builder and collect the
sentence it broadcast (if any).  Returns the final store and the sentences in
broadcast order. -/
def process_values (time_str : String) (m : LiveMap) :
    List (String × InterpVal) → LiveMap × List String
  | [] => (m, [])
  | (channel_name, v) :: rest =>
    let m1 := update_live_data m channel_name v
    let msg := trigger_nmea_sentence time_str channel_name m1
    let r := process_values time_str m1 rest
    (r.1, match msg with | none => r.2 | some s => s :: r.2)

/-- All builders of fastnet2ip.py (the GLL builder applied to the given clock
string), for quantifying over "every NMEA builder". -/
def allBuilders (time_str : String) : List (LiveMap → Option String) :=
  [process_vhw, process_dbt, process_rsa, process_xdr_battv, process_mwd,
   process_mwv_true, process_mwv_apparent, process_mtw, process_hdm,
   process_vtg, process_gll time_str, process_xdr_raw_wind_angle,
   process_xdr_raw_wind_s, process_xdr_drift, process_xdr_set,
   process_xdr_raw_bsp, process_xdr_roll, process_xdr_pitch]

/-! ### Basic lemmas -/

theorem getD_take_of_lt (l : List Nat) {i n : Nat} (h : i < n) (d : Nat) :
    (l.take n).getD i d = l.getD i d := by
  simp [List.getD_eq_getElem?_getD, List.getElem?_take, h]

theorem getD_append_of_lt (l l' : List Nat) {i : Nat} (h : i < l.length) (d : Nat) :
    (l ++ l').getD i d = l.getD i d := by
  simp [List.getD_eq_getElem?_getD, List.getElem?_append, h]

theorem calculate_checksum_eq_mod (d : List Nat) :
    calculate_checksum d = (0x100 - d.sum % 0x100) % 0x100 := by
  unfold calculate_checksum
  exact Nat.and_pow_two_sub_one_eq_mod _ 8

theorem calculate_checksum_lt (d : List Nat) : calculate_checksum d < 256 := by
  rw [calculate_checksum_eq_mod]
  exact Nat.mod_lt _ (by norm_num)

theorem calculate_checksum_int (d : List Nat) :
    (calculate_checksum d : Int) = (-(d.sum : Int)) % 256 := by
  rw [calculate_checksum_eq_mod]
  omega

/-- The scan loop returns the same result for any sufficient fuel. -/
theorem scanFuel_small (b : List Nat) (h : b.length < 6) (fuel : Nat) :
    scanFuel fuel b = ([], (b, false)) := by
  cases fuel with
  | zero => rfl
  | succ n => simp [scanFuel, h]

theorem scanFuel_eq_of_le :
    ∀ f1 f2 : Nat, ∀ b : List Nat, b.length ≤ f1 → b.length ≤ f2 →
      scanFuel f1 b = scanFuel f2 b := by
  intro f1
  induction f1 with
  | zero =>
    intro f2 b h1 h2
    rw [scanFuel_small b (by omega), scanFuel_small b (by omega)]
  | succ n ih =>
    intro f2 b h1 h2
    by_cases hb : b.length < 6
    · rw [scanFuel_small b hb, scanFuel_small b hb]
    · obtain ⟨m, rfl⟩ : ∃ m, f2 = m + 1 := ⟨f2 - 1, by omega⟩
      simp only [scanFuel, hb, if_false]
      have hd1 : (b.drop 1).length ≤ n := by simp; omega
      have hd1' : (b.drop 1).length ≤ m := by simp; omega
      split_ifs with h1' h2' h3' h4'
      · exact ih m (b.drop 1) hd1 hd1'
      · rfl
      · exact ih m (b.drop 1) hd1 hd1'
      · rfl
      · have hd : (b.drop (6 + b.getD 2 0)).length ≤ n := by simp; omega
        have hd' : (b.drop (6 + b.getD 2 0)).length ≤ m := by simp; omega
        rw [ih m _ hd hd']

theorem scanFuel_eq_loop (fuel : Nat) (b : List Nat) (h : b.length ≤ fuel) :
    scanFuel fuel b = frame_scanner_loop b :=
  scanFuel_eq_of_le fuel b.length b h le_rfl

/-- A header checksum failure discards exactly one byte and rescans. -/
theorem scan_header_fail (b : List Nat) (h6 : 6 ≤ b.length)
    (hf : calculate_checksum (b.take 4) ≠ b.getD 4 0) :
    frame_scanner_loop b = frame_scanner_loop (b.drop 1) := by
  obtain ⟨n, hn⟩ : ∃ n, b.length = n + 1 := ⟨b.length - 1, by omega⟩
  unfold frame_scanner_loop
  rw [hn]
  simp only [scanFuel]
  rw [if_neg (show ¬ b.length < 6 by omega), if_pos hf]
  exact scanFuel_eq_of_le n (b.drop 1).length _ (by simp; omega) le_rfl

/-- A body checksum failure (with the header accepted and the whole frame in
the buffer) also discards exactly one byte and rescans. -/
theorem scan_body_fail (b : List Nat) (h6 : 6 ≤ b.length)
    (hh : calculate_checksum (b.take 4) = b.getD 4 0)
    (hfull : 6 + b.getD 2 0 ≤ b.length)
    (hb : calculate_checksum ((b.drop 5).take (b.getD 2 0)) ≠ b.getD (5 + b.getD 2 0) 0) :
    frame_scanner_loop b = frame_scanner_loop (b.drop 1) := by
  obtain ⟨n, hn⟩ : ∃ n, b.length = n + 1 := ⟨b.length - 1, by omega⟩
  unfold frame_scanner_loop
  rw [hn]
  simp only [scanFuel]
  rw [if_neg (show ¬ b.length < 6 by omega), if_neg (not_not_intro hh),
    if_neg (show ¬ b.length < 6 + b.getD 2 0 by omega), if_pos hb]
  exact scanFuel_eq_of_le n (b.drop 1).length _ (by simp; omega) le_rfl

/-- Scanning a buffer that starts with a valid frame: the frame is passed to
processing; the buffer advances past it unless processing raises, in which
case the buffer is left untouched and the loop aborts. -/
theorem scan_valid_emit (F rest : List Nat) (hF : ValidFrame F) :
    frame_scanner_loop (F ++ rest) =
      if raisesOn F then ([F], (F ++ rest, true))
      else (F :: (frame_scanner_loop rest).1, (frame_scanner_loop rest).2) := by
  obtain ⟨hlen, hh, hb⟩ := hF
  have h6 : 6 ≤ F.length := by omega
  have hlen' : (F ++ rest).length = F.length + rest.length := List.length_append F rest
  obtain ⟨n, hn⟩ : ∃ n, (F ++ rest).length = n + 1 := ⟨(F ++ rest).length - 1, by omega⟩
  have hg2 : (F ++ rest).getD 2 0 = F.getD 2 0 := getD_append_of_lt F rest (by omega) 0
  have hg4 : (F ++ rest).getD 4 0 = F.getD 4 0 := getD_append_of_lt F rest (by omega) 0
  have hg5 : (F ++ rest).getD (5 + F.getD 2 0) 0 = F.getD (5 + F.getD 2 0) 0 :=
    getD_append_of_lt F rest (by omega) 0
  have ht4 : (F ++ rest).take 4 = F.take 4 := List.take_append_of_le_length (by omega)
  have hd5 : (F ++ rest).drop 5 = F.drop 5 ++ rest := List.drop_append_of_le_length (by omega)
  have hlen5 : (F.drop 5).length = 1 + F.getD 2 0 := by rw [List.length_drop]; omega
  have htb : ((F ++ rest).drop 5).take (F.getD 2 0) = (F.drop 5).take (F.getD 2 0) := by
    rw [hd5]; exact List.take_append_of_le_length (by omega)
  have htf : (F ++ rest).take (6 + F.getD 2 0) = F := by
    rw [← hlen]; exact List.take_left F rest
  have hdf : (F ++ rest).drop (6 + F.getD 2 0) = rest := by
    rw [← hlen]; exact List.drop_left F rest
  unfold frame_scanner_loop
  rw [hn]
  simp only [scanFuel]
  rw [if_neg (show ¬ (F ++ rest).length < 6 by omega), hg2, hg4,
    if_neg (show ¬ calculate_checksum ((F ++ rest).take 4) ≠ F.getD 4 0 by
      rw [ht4]; exact not_not_intro hh),
    if_neg (show ¬ (F ++ rest).length < 6 + F.getD 2 0 by omega), hg5,
    if_neg (show ¬ calculate_checksum (((F ++ rest).drop 5).take (F.getD 2 0)) ≠
        F.getD (5 + F.getD 2 0) 0 by rw [htb]; exact not_not_intro hb),
    htf, hdf]
  rw [scanFuel_eq_of_le n rest.length rest (by omega) le_rfl]

/-- The frame sliced off the front of a buffer whose checks all passed is a
valid frame. -/
theorem valid_take (b : List Nat) (_h6 : ¬ b.length < 6)
    (h1 : calculate_checksum (b.take 4) = b.getD 4 0)
    (h2 : ¬ b.length < 6 + b.getD 2 0)
    (h3 : calculate_checksum ((b.drop 5).take (b.getD 2 0)) = b.getD (5 + b.getD 2 0) 0) :
    ValidFrame (b.take (6 + b.getD 2 0)) := by
  have e2 : (b.take (6 + b.getD 2 0)).getD 2 0 = b.getD 2 0 :=
    getD_take_of_lt b (by omega) 0
  have e4 : (b.take (6 + b.getD 2 0)).getD 4 0 = b.getD 4 0 :=
    getD_take_of_lt b (by omega) 0
  have e5 : (b.take (6 + b.getD 2 0)).getD (5 + b.getD 2 0) 0 = b.getD (5 + b.getD 2 0) 0 :=
    getD_take_of_lt b (by omega) 0
  refine ⟨?_, ?_, ?_⟩
  · rw [e2, List.length_take]; omega
  · rw [e2] at *
    rw [e4, List.take_take, show min 4 (6 + b.getD 2 0) = 4 by omega, h1]
  · rw [e2, e5, List.drop_take, List.take_take,
      show min (b.getD 2 0) (6 + b.getD 2 0 - 5) = b.getD 2 0 by omega, h3]

/-- Every frame the scan loop passes to processing satisfies both checksum
checks and has length `6 + body_size`. -/
theorem scanFuel_frames_valid :
    ∀ fuel : Nat, ∀ b F : List Nat, F ∈ (scanFuel fuel b).1 → ValidFrame F := by
  intro fuel
  induction fuel with
  | zero => intro b F hF; simp [scanFuel] at hF
  | succ n ih =>
    intro b F hF
    by_cases h6 : b.length < 6
    · simp [scanFuel, h6] at hF
    · simp only [scanFuel, h6, if_false] at hF
      split_ifs at hF with h1 h2 h3 h4
      · exact ih _ _ hF
      · simp at hF
      · exact ih _ _ hF
      · have hFr : F = b.take (6 + b.getD 2 0) := by simpa using hF
        rw [hFr]
        exact valid_take b h6 (not_not.mp h1) h2 (not_not.mp h3)
      · simp only [List.mem_cons] at hF
        rcases hF with hFr | hF
        · rw [hFr]
          exact valid_take b h6 (not_not.mp h1) h2 (not_not.mp h3)
        · exact ih _ _ hF

/-- Repeated application of the standalone `update_live_data` for a list of
decoded `(channel_name, value)` updates, in order. -/
def apply_updates (m : LiveMap) (ups : List (String × InterpVal)) : LiveMap :=
  ups.foldl (fun acc p => update_live_data acc p.1 p.2) m

/-! ### Claims -/

/-- C1: `calculate_checksum d` equals `(0x100 − (sum d mod 0x100)) & 0xFF`,
which equals `(−sum d) mod 256` and always lies in `0..255`; and every frame
the scanner emits for processing validates both checksums: its byte at offset
4 is that checksum of the four header bytes and its byte at offset
`5 + body_size` is that checksum of the `body_size` body bytes. -/
theorem checksum_spec_and_emitted_frames_validate :
    (∀ d : List Nat,
      calculate_checksum d = (0x100 - d.sum % 0x100) % 0x100 ∧
      (calculate_checksum d : Int) = (-(d.sum : Int)) % 256 ∧
      calculate_checksum d < 256) ∧
    (∀ buffer F : List Nat, F ∈ scannedFrames buffer →
      F.length = 6 + F.getD 2 0 ∧
      F.getD 4 0 = calculate_checksum (F.take 4) ∧
      F.getD (5 + F.getD 2 0) 0 = calculate_checksum ((F.drop 5).take (F.getD 2 0))) := by
  constructor
  · intro d
    exact ⟨calculate_checksum_eq_mod d, calculate_checksum_int d, calculate_checksum_lt d⟩
  · intro buffer F hF
    obtain ⟨h1, h2, h3⟩ := scanFuel_frames_valid buffer.length buffer F hF
    exact ⟨h1, h2.symm, h3.symm⟩

/-- C1 witness: the valid frame `01 09 04 01 F1 41 01 00 5B 63` is emitted
when scanned and validates. -/
theorem checksum_spec_and_emitted_frames_validate_witness :
    calculate_checksum [1, 2, 3] < 256 ∧
    ([1, 9, 4, 1, 241, 65, 1, 0, 91, 99] : List Nat).getD 4 0 =
      calculate_checksum (([1, 9, 4, 1, 241, 65, 1, 0, 91, 99] : List Nat).take 4) :=
  ⟨(checksum_spec_and_emitted_frames_validate.1 [1, 2, 3]).2.2,
    (checksum_spec_and_emitted_frames_validate.2
      [1, 9, 4, 1, 241, 65, 1, 0, 91, 99]
      [1, 9, 4, 1, 241, 65, 1, 0, 91, 99] (by decide)).2.1⟩

/-- C2 counterexample: garbage whose first six bytes happen to pass the header
checksum with a huge `body_size` (`00 00 FA 00 06 00`) makes the scanner wait
forever for the rest of that phantom frame, so the valid frame F behind it is
never emitted: `drain(G ‖ F)` yields nothing, not F. -/
theorem resync_claim_counterexample :
    ValidFrame [1, 9, 4, 1, 241, 65, 1, 0, 91, 99] ∧
    scannedFrames ([0, 0, 250, 0, 6, 0] ++ [1, 9, 4, 1, 241, 65, 1, 0, 91, 99]) = [] ∧
    scannedFrames ([0, 0, 250, 0, 6, 0] ++ [1, 9, 4, 1, 241, 65, 1, 0, 91, 99]) ≠
      [[1, 9, 4, 1, 241, 65, 1, 0, 91, 99]] := by
  decide

/-- C2 (amended): if no nonempty suffix of the garbage G, followed by F,
passes the header checksum test, then scanning `G ‖ F` emits exactly F; and on
every header or body checksum failure the scanner discards exactly one byte
from the front of its buffer and retries. -/
theorem resync_robust_amended :
    (∀ G F : List Nat, ValidFrame F →
      (∀ i, i < G.length →
        calculate_checksum ((G.drop i ++ F).take 4) ≠ (G.drop i ++ F).getD 4 0) →
      scannedFrames (G ++ F) = [F]) ∧
    (∀ b : List Nat, 6 ≤ b.length →
      calculate_checksum (b.take 4) ≠ b.getD 4 0 →
      frame_scanner_loop b = frame_scanner_loop (b.drop 1)) ∧
    (∀ b : List Nat, 6 ≤ b.length →
      calculate_checksum (b.take 4) = b.getD 4 0 →
      6 + b.getD 2 0 ≤ b.length →
      calculate_checksum ((b.drop 5).take (b.getD 2 0)) ≠ b.getD (5 + b.getD 2 0) 0 →
      frame_scanner_loop b = frame_scanner_loop (b.drop 1)) := by
  refine ⟨?_, ?_, ?_⟩
  · intro G
    induction G with
    | nil =>
      intro F hF _
      have h := scan_valid_emit F [] hF
      rw [List.append_nil] at h
      unfold scannedFrames
      rw [List.nil_append, h]
      split_ifs <;> rfl
    | cons g G' ih =>
      intro F hF hG
      have hlenF : 6 ≤ F.length := by
        obtain ⟨h1, -, -⟩ := hF; omega
      have hstep : frame_scanner_loop ((g :: G') ++ F) =
          frame_scanner_loop (((g :: G') ++ F).drop 1) := by
        refine scan_header_fail _ (by simp; omega) ?_
        have := hG 0 (by simp)
        simpa using this
      have hdrop : ((g :: G') ++ F).drop 1 = G' ++ F := by simp
      unfold scannedFrames
      rw [hstep, hdrop]
      exact ih F hF (fun i hi => by
        have := hG (i + 1) (by simp; omega)
        simpa [List.drop_succ_cons] using this)
  · intro b h6 hf
    exact scan_header_fail b h6 hf
  · intro b h6 hh hfull hb
    exact scan_body_fail b h6 hh hfull hb

/-- C2 witness: three garbage bytes in front of a valid frame are each
discarded one at a time and the frame alone is emitted. -/
theorem resync_robust_amended_witness :
    scannedFrames ([7, 7, 7] ++ [1, 9, 4, 1, 241, 65, 1, 0, 91, 99]) =
      [[1, 9, 4, 1, 241, 65, 1, 0, 91, 99]] :=
  resync_robust_amended.1 [7, 7, 7] [1, 9, 4, 1, 241, 65, 1, 0, 91, 99]
    (by decide) (by decide)

/-- C3: for a triple whose format byte has low nibble `0x01` and exactly two
payload bytes, `decode_format_and_data` interprets the payload as a 16-bit
big-endian signed integer divided by the divisor selected by the top two bits
of the format byte, where the divisor table is `00→1, 01→10, 10→100,
11→1000`. -/
theorem decode_int16_divisor (channel_id format_byte : Nat) (data_bytes : List Nat)
    (hfmt : format_byte &&& 0x0F = 0x01) (hlen : data_bytes.length = 2) :
    (decode_format_and_data channel_id format_byte data_bytes).map
        DecodedResult.interpreted =
      some (.num ((bytesToIntBE data_bytes : ℚ) /
        (divisor_map ((format_byte >>> 6) &&& 0b11) : ℚ))) ∧
    divisor_map 0b00 = 1 ∧ divisor_map 0b01 = 10 ∧
    divisor_map 0b10 = 100 ∧ divisor_map 0b11 = 1000 := by
  refine ⟨?_, rfl, rfl, rfl, rfl⟩
  have h0 : ¬ data_bytes.length = 0 := by omega
  have h2 : ¬ data_bytes.length ≠ 2 := not_not_intro hlen
  simp only [decode_format_and_data, hfmt]
  rw [if_neg h0, if_pos trivial, if_neg h2]
  rfl

/-- C3 witness: format byte `0x51` (divisor bits `01` → ×10, nibble 1) with
payload `00 5B` decodes to 91 / 10. -/
theorem decode_int16_divisor_witness :
    (decode_format_and_data 0x41 0x51 [0x00, 0x5B]).map DecodedResult.interpreted =
      some (.num ((bytesToIntBE [0x00, 0x5B] : ℚ) /
        (divisor_map ((0x51 >>> 6) &&& 0b11) : ℚ))) :=
  (decode_int16_divisor 0x41 0x51 [0x00, 0x5B] (by decide) (by decide)).1

unseal Rat.mul Rat.inv Rat.add Rat.sub in
/-- C4 fails as stated: in the S1 seed frame the format byte is `0x01`, whose
DD bits are `00`, so the divisor is ×1, not ×10: the body `41 01 00 5B`
decodes Boatspeed (Knots) to 91, not 9.1. -/
theorem s1_decodes_to_91_not_9_1 :
    process_frame_updates [0x01, 0x09, 0x05, 0x01, 0xF0, 0x41, 0x01, 0x00, 0x5B, 0x63] =
      [("Boatspeed (Knots)", InterpVal.num 91)] ∧
    InterpVal.num 91 ≠ InterpVal.num ((91 : ℚ) / 10) := by
  decide

unseal Rat.mul Rat.inv Rat.add Rat.sub in
/-- C4 (amended): decoding the S1 body interprets channel 0x41 with format
byte `0x01` as a signed int16 with divisor ×1 (the DD bits of `0x01` are 00),
so raw `0x005B` = 91 yields interpreted value 91, and the live store entry for
"Boatspeed (Knots)" is updated to 91. -/
theorem s1_boatspeed_updated :
    (decode_format_and_data 0x41 0x01 [0x00, 0x5B]).map DecodedResult.interpreted =
      some (.num 91) ∧
    divisor_map ((0x01 >>> 6) &&& 0b11) = 1 ∧
    apply_updates emptyLive
      (process_frame_updates [0x01, 0x09, 0x05, 0x01, 0xF0, 0x41, 0x01, 0x00, 0x5B, 0x63])
      "Boatspeed (Knots)" = some (.num 91) := by
  refine ⟨by decide, by decide, by decide⟩

/-- C5 fails as stated: a triple with the undocumented format nibble `0x09`
makes `process_frame` break out of the body loop (`data_length == 0 → break`),
so the decodable Boatspeed triple behind it is never decoded or committed. -/
theorem unknown_format_stops_body :
    processBody [0x41, 0x09, 0x41, 0x01, 0x00, 0x5B] = [] := by
  decide

/-- The body loop returns the same result for any sufficient fuel. -/
theorem processBodyFuel_eq_of_le :
    ∀ f1 f2 : Nat, ∀ b : List Nat, b.length ≤ f1 → b.length ≤ f2 →
      processBodyFuel f1 b = processBodyFuel f2 b := by
  intro f1
  induction f1 with
  | zero =>
    intro f2 b h1 h2
    have hb : b = [] := List.eq_nil_of_length_eq_zero (by omega)
    subst hb
    cases f2 <;> rfl
  | succ n ih =>
    intro f2 b h1 h2
    match b with
    | [] => cases f2 <;> rfl
    | [x] => cases f2 <;> rfl
    | ch :: fb :: rest =>
      simp only [List.length_cons] at h1 h2
      obtain ⟨m, rfl⟩ : ∃ m, f2 = m + 1 := ⟨f2 - 1, by omega⟩
      simp only [processBodyFuel]
      split_ifs with hdl hlen
      · rfl
      · rfl
      · have hd : (rest.drop (FORMAT_SIZE_MAP (fb &&& 0x0F))).length ≤ n := by
          simp only [List.length_drop]; omega
        have hd' : (rest.drop (FORMAT_SIZE_MAP (fb &&& 0x0F))).length ≤ m := by
          simp only [List.length_drop]; omega
        cases hdec : decode_format_and_data ch fb (rest.take (FORMAT_SIZE_MAP (fb &&& 0x0F))) with
        | none => exact ih m _ hd hd'
        | some r => rw [ih m _ hd hd']

/-- `decode_format_and_data` rejects format nibble `0x00` (it is in the size
map but has no decoder branch). -/
theorem decode_fmt_zero_none (channel_id format_byte : Nat) (data_bytes : List Nat)
    (hfmt : format_byte &&& 0x0F = 0x00) (h0 : ¬ data_bytes.length = 0) :
    decode_format_and_data channel_id format_byte data_bytes = none := by
  simp only [decode_format_and_data, hfmt]
  rw [if_neg h0]
  simp

/-- C5 (amended): a triple whose format nibble is absent from
`FORMAT_SIZE_MAP` stops decoding of the rest of the body (already decoded
triples before it stand); a triple whose nibble is in the size map but is
rejected by `decode_format_and_data` (nibble `0x00`, payload 4 bytes) is
skipped and decoding continues from the next triple. -/
theorem unknown_format_amended :
    (∀ channel_id format_byte : Nat, ∀ rest : List Nat,
      FORMAT_SIZE_MAP (format_byte &&& 0x0F) = 0 →
      processBody (channel_id :: format_byte :: rest) = []) ∧
    (∀ channel_id format_byte : Nat, ∀ rest : List Nat,
      format_byte &&& 0x0F = 0x00 → 4 ≤ rest.length →
      processBody (channel_id :: format_byte :: rest) = processBody (rest.drop 4)) := by
  constructor
  · intro ch fb rest h
    unfold processBody
    simp only [List.length_cons, processBodyFuel]
    rw [if_pos h]
  · intro ch fb rest hfmt hlen
    unfold processBody
    simp only [List.length_cons, processBodyFuel, hfmt]
    have h4 : FORMAT_SIZE_MAP 0x00 = 4 := rfl
    rw [h4, if_neg (by norm_num), if_neg (show ¬ rest.length < 4 by omega),
      decode_fmt_zero_none ch fb _ hfmt (by
        simp only [List.length_take]; omega)]
    exact processBodyFuel_eq_of_le (rest.length + 1) (rest.drop 4).length _
      (by simp only [List.length_drop]; omega) le_rfl

/-- C5 witness: nibble `0x09` stops the loop; nibble `0x00` with four payload
bytes is skipped and the Boatspeed triple after it is still decoded. -/
theorem unknown_format_amended_witness :
    processBody [0x41, 0x09, 0x41, 0x01, 0x00, 0x5B] = [] ∧
    processBody [0x41, 0x00, 1, 2, 3, 4, 0x41, 0x01, 0x00, 0x5B] =
      processBody [0x41, 0x01, 0x00, 0x5B] :=
  ⟨unknown_format_amended.1 0x41 0x09 [0x41, 0x01, 0x00, 0x5B] (by decide),
   unknown_format_amended.2 0x41 0x00 [1, 2, 3, 4, 0x41, 0x01, 0x00, 0x5B]
     (by decide) (by decide)⟩

unseal Rat.mul Rat.inv Rat.add Rat.sub in
/-- C6 fails as stated: with True Wind Angle present and True Wind Speed
absent, the MWV-T builder does not return null — it emits an MWV sentence with
an empty speed field and status `V`. -/
theorem mwv_true_not_null_counterexample :
    process_mwv_true (update_live_data emptyLive "True Wind Angle" (.num (-45))) =
      some "$IIMWV,315.0,T,,N,V*05\n" ∧
    process_mwv_true (update_live_data emptyLive "True Wind Angle" (.num (-45))) ≠
      none := by
  decide

unseal Rat.mul Rat.inv Rat.add Rat.sub in
/-- C6 (amended): only the GLL builder can return null — every other builder
returns a sentence on every store, missing inputs included; GLL returns null
when LatLon is absent; the MWV-T builder invoked while TWS is absent emits an
MWV sentence with a blank speed field and status `V`, and once both TWA and
TWS are present it emits the complete sentence with status `A` (angle
normalized). -/
theorem builders_on_missing_inputs :
    (∀ time_str : String, ∀ b ∈ allBuilders time_str,
      (∀ m : LiveMap, ∃ s, b m = some s) ∨ b = process_gll time_str) ∧
    process_gll "120000" emptyLive = none ∧
    process_mwv_true (update_live_data emptyLive "True Wind Angle" (.num (-45))) =
      some "$IIMWV,315.0,T,,N,V*05\n" ∧
    process_mwv_true (update_live_data
        (update_live_data emptyLive "True Wind Angle" (.num (-45)))
        "True Wind Speed (Knots)" (.num (123 / 10))) =
      some "$IIMWV,315.0,T,12.3,N,A*0C\n" := by
  refine ⟨?_, rfl, by decide, by decide⟩
  intro time_str b hb
  simp only [allBuilders, List.mem_cons, List.not_mem_nil, or_false] at hb
  rcases hb with rfl | rfl | rfl | rfl | rfl | rfl | rfl | rfl | rfl | rfl | rfl | rfl |
    rfl | rfl | rfl | rfl | rfl | rfl <;>
  first
    | exact Or.inr rfl
    | exact Or.inl fun m => ⟨_, rfl⟩

/-- C6 witness: the HDM builder is a non-GLL builder, so it returns a sentence
on every store. -/
theorem builders_on_missing_inputs_witness :
    (∀ m : LiveMap, ∃ s, process_hdm m = some s) ∨ process_hdm = process_gll "120000" :=
  builders_on_missing_inputs.1 "120000" process_hdm (by simp [allBuilders])

unseal Rat.mul Rat.inv Rat.add Rat.sub in
/-- C7 fails as stated: `trigger_functions` maps "Heading" to the single
builder `process_hdm`, so a Heading-only update broadcasts exactly one
sentence, an HDM — no VHW sentence is emitted. -/
theorem heading_triggers_only_hdm :
    (process_values "120000" emptyLive [("Heading", InterpVal.num 183)]).2 =
      ["$IIHDM,183.0,M*28\n"] ∧
    ∀ s ∈ (process_values "120000" emptyLive [("Heading", InterpVal.num 183)]).2,
      ¬ List.isPrefixOf "$IIVHW".data s.data := by
  decide

unseal Rat.mul Rat.inv Rat.add Rat.sub in
/-- C7 (amended): a Heading update triggers only the HDM builder; a single
frame carrying (Heading, Boatspeed) still puts both an HDM and a VHW sentence
on the sink before the next frame, because the Boatspeed update triggers VHW
(which reads the freshly stored heading). -/
theorem heading_and_boatspeed_frame :
    trigger_functions "120000" "Heading" = some process_hdm ∧
    (process_values "120000" emptyLive
      [("Heading", InterpVal.num 183), ("Boatspeed (Knots)", InterpVal.num (91 / 10))]).2 =
      ["$IIHDM,183.0,M*28\n", "$IIVHW,,,183.0,M,9.1,N,,*48\n"] := by
  refine ⟨rfl, by decide⟩

unseal Rat.mul Rat.inv Rat.add Rat.sub in
/-- C8: `process_vtg` reads the live key "Speed Over Ground (Knots)", but the
channel table and trigger table use "Speed Over Ground", so after a Speed Over
Ground update the VTG speed fields are blank and the mode is `V` instead of
carrying S and S·1.852. -/
theorem vtg_reads_absent_sog_key :
    CHANNEL_LOOKUP.lookup 0xEB = some "Speed Over Ground" ∧
    (let m := update_live_data (update_live_data (update_live_data emptyLive
        "Speed Over Ground" (.num 5)) "Course Over Ground (True)" (.num 100))
        "Course Over Ground (Mag)" (.num 110)
     get_live_data m "Speed Over Ground" = some 5 ∧
     get_live_data m "Speed Over Ground (Knots)" = none ∧
     process_vtg m = some "$IIVTG,100.0,T,110.0,M,,,,,V*27\n") := by
  refine ⟨by decide, by decide, rfl, by decide⟩

/-- C9: every sentence a builder returns has the wire form `$<body>*<HH>\n`
where `HH` is `calculate_nmea_checksum` of the body, so recomputing the XOR
over the body of an emitted sentence reproduces its `*HH`. -/
theorem builder_sentences_wire_form (time_str : String) (b : LiveMap → Option String)
    (hb : b ∈ allBuilders time_str) (m : LiveMap) (s : String) (hs : b m = some s) :
    ∃ body, s = "$" ++ body ++ "*" ++ calculate_nmea_checksum body ++ "\n" := by
  simp only [allBuilders, List.mem_cons, List.not_mem_nil, or_false] at hb
  rcases hb with rfl | rfl | rfl | rfl | rfl | rfl | rfl | rfl | rfl | rfl | rfl | rfl |
    rfl | rfl | rfl | rfl | rfl | rfl <;>
  first
    | exact ⟨_, (Option.some.inj hs).symm⟩
    | (unfold process_gll at hs
       split at hs
       · simp at hs
       · split at hs
         · simp at hs
         · simp only [] at hs
           split at hs
           · simp at hs
           · exact ⟨_, (Option.some.inj hs).symm⟩)

/-- C9 witness: the HDM builder on the empty store. -/
theorem builder_sentences_wire_form_witness :
    ∃ body, "$IIHDM,,M*0C\n" = "$" ++ body ++ "*" ++ calculate_nmea_checksum body ++ "\n" :=
  builder_sentences_wire_form "120000" process_hdm (by simp [allBuilders])
    emptyLive "$IIHDM,,M*0C\n" (by decide)

/-- C10: a checksum-valid command-0x03 frame with `body_size ≤ 1` makes
`process_ascii_frame` raise IndexError (modelled `.error ()`, no store
update); the scan loop passes the frame to processing, aborts on the escaped
exception and leaves the buffer untouched, so whatever bytes `rest` follow or
later arrive, the same frame is re-validated at the front and nothing behind
it is ever emitted. -/
theorem short_ascii_frame_wedges_scanner (F rest : List Nat) (hF : ValidFrame F)
    (hcmd : F.getD 3 0 = 3) (hbs : F.getD 2 0 ≤ 1) :
    process_ascii_frame F = .error () ∧
    frame_scanner_loop (F ++ rest) = ([F], (F ++ rest, true)) := by
  obtain ⟨hlen, hh, hb⟩ := hF
  have herr : process_ascii_frame F = .error () := by
    unfold process_ascii_frame
    rw [if_pos (by omega)]
  have hraise : raisesOn F = true := by
    unfold raisesOn
    rw [herr, hcmd]
    rfl
  refine ⟨herr, ?_⟩
  rw [scan_valid_emit F rest ⟨hlen, hh, hb⟩, if_pos hraise]

/-- C10 witness: the frame `01 09 00 03 F3 00` (empty command-0x03 body, both
checksums valid) wedges the scanner even with more bytes behind it. -/
theorem short_ascii_frame_wedges_scanner_witness :
    process_ascii_frame [1, 9, 0, 3, 243, 0] = .error () ∧
    frame_scanner_loop ([1, 9, 0, 3, 243, 0] ++ [99]) =
      ([[1, 9, 0, 3, 243, 0]], ([1, 9, 0, 3, 243, 0] ++ [99], true)) :=
  short_ascii_frame_wedges_scanner [1, 9, 0, 3, 243, 0] [99]
    (by decide) (by decide) (by decide)

end Fastnet
